import Mathlib

/-!
Verification of the voice pipeline of the `blinko` desktop application
(`src/app/src-tauri/src/voice/`): audio capture and resampling
(`recorder.rs`), the Whisper engine wrapper with GPU→CPU fallback
(`transcriber.rs`), the global keyboard monitor and transcription worker
(`processor.rs`), configuration validation (`config.rs`) and the
command-level lifecycle (`commands.rs`).

Numeric embedding conventions: Rust `f32` sample values and configuration
fields are modelled as exact rationals (`ℚ`); the float-to-integer casts
`as usize` (truncation toward zero, saturating at 0 for negatives) are
modelled as `(Int.floor …).toNat`; machine integers are `Nat`.  Time is in
milliseconds (`Instant::elapsed().as_millis()` becomes `Nat` subtraction).
External effectful primitives (filesystem existence checks, the whisper-rs
model loader, the inference call) are passed in as explicit function
arguments, so every definition stays executable.
-/

/-- `VoiceConfig` from `config.rs` (serde field renames omitted; the
rational fields model the `f32` fields exactly). -/
structure VoiceConfig where
  enabled : Bool
  hotkey : String
  gpu_acceleration : Bool
  model_path : String
  language : String
  sensitivity : ℚ
  min_duration : ℚ
  max_duration : ℚ
  sample_rate : Nat
  auto_gpu_detection : Bool
  deriving DecidableEq, Repr

/-- `validate_voice_config` from `config.rs`.  `pathExists` stands for
`std::path::Path::new(p).exists()`. -/
def validate_voice_config (pathExists : String → Bool) (config : VoiceConfig) :
    Except String Unit :=
  if config.model_path = "" then
    .error "Model file path is not set. Please select a Whisper model file."
  else if ¬ pathExists config.model_path then
    .error ("Model file not found: " ++ config.model_path)
  else if config.sensitivity < 0 ∨ 1 < config.sensitivity then
    .error "Sensitivity must be between 0.0 and 1.0"
  else if config.min_duration ≤ 0 then
    .error "Minimum duration must be positive"
  else if config.max_duration ≤ config.min_duration then
    .error "Maximum duration must be greater than minimum duration"
  else if config.sample_rate < 8000 ∨ 48000 < config.sample_rate then
    .error "Sample rate must be between 8000 and 48000 Hz"
  else
    .ok ()

/-- The subset of `rdev::Key` values producible by `parse_hotkey`, plus
`F2` as the fallback default. -/
inductive Key where
  | F1 | F2 | F3 | F4 | F5 | F6 | F7 | F8 | F9 | F10 | F11 | F12
  | Alt | MetaLeft | ControlLeft | Tab | Space | Escape | ShiftLeft | CapsLock
  deriving DecidableEq, Repr

/-- `str::to_uppercase` of an ASCII key name, modelled as mapping
`Char.toUpper` over the string's characters. -/
def toUpperStr (s : String) : String := ⟨s.data.map Char.toUpper⟩

/-- `VoiceProcessor::parse_hotkey` from `processor.rs`: uppercase the
configured name and look it up in the closed mapping. -/
def parse_hotkey (hotkey_str : String) : Option Key :=
  match toUpperStr hotkey_str with
  | "F1" => some Key.F1
  | "F2" => some Key.F2
  | "F3" => some Key.F3
  | "F4" => some Key.F4
  | "F5" => some Key.F5
  | "F6" => some Key.F6
  | "F7" => some Key.F7
  | "F8" => some Key.F8
  | "F9" => some Key.F9
  | "F10" => some Key.F10
  | "F11" => some Key.F11
  | "F12" => some Key.F12
  | "ALT" => some Key.Alt
  | "OPTION" => some Key.Alt
  | "WIN" => some Key.MetaLeft
  | "WINDOWS" => some Key.MetaLeft
  | "CMD" => some Key.MetaLeft
  | "META" => some Key.MetaLeft
  | "CTRL" => some Key.ControlLeft
  | "CONTROL" => some Key.ControlLeft
  | "TAB" => some Key.Tab
  | "SPACE" => some Key.Space
  | "ESC" => some Key.Escape
  | "ESCAPE" => some Key.Escape
  | "SHIFT" => some Key.ShiftLeft
  | "CAPS" => some Key.CapsLock
  | "CAPSLOCK" => some Key.CapsLock
  | _ => none

/-- The target key the keyboard monitor ends up with
(`Self::parse_hotkey(&config_snapshot.hotkey).unwrap_or(Key::F2)` in
`global_keyboard_event_loop`). -/
def monitorTargetKey (hotkey_str : String) : Key :=
  (parse_hotkey hotkey_str).getD Key.F2

/-- `AudioRecorder::stop_recording`'s resampling loop from `recorder.rs`,
with the `f32` index arithmetic carried out exactly over `ℚ`:
`resample_ratio = sample_rate / 16000`, `new_length = ⌊len / ratio⌋`,
`index = ⌊i * ratio⌋`; an out-of-range index pushes nothing, a stereo
source averages the two interleaved values at `index`. -/
def resample (sample_rate : Nat) (channels : Nat) (data : List ℚ) : List ℚ :=
  let resample_ratio : ℚ := (sample_rate : ℚ) / 16000
  let new_length : Nat := (Int.floor ((data.length : ℚ) / resample_ratio)).toNat
  (List.range new_length).filterMap (fun (i : Nat) =>
    let index := (Int.floor ((i : ℚ) * resample_ratio)).toNat
    if index < data.length then
      if channels = 2 ∧ index + 1 < data.length then
        some ((data.getD index 0 + data.getD (index + 1) 0) / 2)
      else
        some (data.getD index 0)
    else
      none)

/-- The per-output-index source sample of the resampler: the mono
conversion applied at an in-range source index. -/
def sourceSample (channels : Nat) (data : List ℚ) (index : Nat) : ℚ :=
  if channels = 2 ∧ index + 1 < data.length then
    (data.getD index 0 + data.getD (index + 1) 0) / 2
  else
    data.getD index 0

/-- `AudioRecorder`'s mutable state: the armed flag, the raw capture
buffer, and the stream's fixed rate and channel count. -/
structure RecorderState where
  is_recording : Bool
  audio_data : List ℚ
  sample_rate : Nat
  channels : Nat
  deriving DecidableEq, Repr

/-- `AudioRecorder::start_recording`: arm and clear the buffer. -/
def start_recording (r : RecorderState) : RecorderState :=
  { r with is_recording := true, audio_data := [] }

/-- `AudioRecorder::stop_recording`: disarm and return the resampled
snapshot of the buffer. -/
def stop_recording (r : RecorderState) : List ℚ × RecorderState :=
  (resample r.sample_rate r.channels r.audio_data,
   { r with is_recording := false })

/-- The hardware audio callback from `AudioRecorder::new`: append to the
buffer only while armed. -/
def audioCallback (data : List ℚ) (r : RecorderState) : RecorderState :=
  if r.is_recording then { r with audio_data := r.audio_data ++ data } else r

theorem filterMap_eq_map_of_eq_some {α β : Type} (l : List α)
    (f : α → Option β) (g : α → β) (h : ∀ a ∈ l, f a = some (g a)) :
    l.filterMap f = l.map g := by
  induction l with
  | nil => rfl
  | cons a l ih =>
    rw [List.filterMap_cons, h a (List.mem_cons_self a l), List.map_cons,
      ih (fun b hb => h b (List.mem_cons_of_mem a hb))]

/-- For `0 < R`, every index the resampler computes for an output slot
below `new_length` lands strictly inside the source buffer. -/
theorem resample_index_lt (R n i : Nat) (hR : 0 < R)
    (hi : i < (Int.floor ((n : ℚ) / ((R : ℚ) / 16000))).toNat) :
    (Int.floor ((i : ℚ) * ((R : ℚ) / 16000))).toNat < n := by
  set ratio : ℚ := (R : ℚ) / 16000 with hratio
  have hratio_pos : 0 < ratio := by
    apply div_pos
    · exact_mod_cast hR
    · norm_num
  have h1 : (i : ℤ) < Int.floor ((n : ℚ) / ratio) := by omega
  have h2 : ((i : ℚ) + 1) ≤ (n : ℚ) / ratio := by
    have h2a : ((i : ℤ) + 1) ≤ Int.floor ((n : ℚ) / ratio) := by omega
    have := Int.le_floor.mp h2a
    push_cast at this
    linarith
  have h3 : ((i : ℚ) + 1) * ratio ≤ (n : ℚ) := (le_div_iff₀ hratio_pos).mp h2
  have h4 : (i : ℚ) * ratio < (n : ℚ) := by nlinarith
  have h5 : Int.floor ((i : ℚ) * ratio) < (n : ℤ) := by
    rw [Int.floor_lt]
    exact_mod_cast h4
  have h6 : (0 : ℤ) ≤ Int.floor ((i : ℚ) * ratio) := by
    apply Int.floor_nonneg.mpr
    positivity
  omega

/-- The resampler, for `0 < R`, is exactly the map of `sourceSample` over
the computed indices: the out-of-range guard never drops a slot. -/
theorem resample_eq_map (R ch : Nat) (data : List ℚ) (hR : 0 < R) :
    resample R ch data =
      (List.range ((Int.floor ((data.length : ℚ) / ((R : ℚ) / 16000))).toNat)).map
        (fun (i : Nat) => sourceSample ch data ((Int.floor ((i : ℚ) * ((R : ℚ) / 16000))).toNat)) := by
  unfold resample
  refine filterMap_eq_map_of_eq_some
    (List.range ((Int.floor ((data.length : ℚ) / ((R : ℚ) / 16000))).toNat)) _ _ ?_
  intro i hi
  rw [List.mem_range] at hi
  have hlt := resample_index_lt R data.length i hR hi
  simp only [hlt, if_pos]
  unfold sourceSample
  by_cases h2 : ch = 2 ∧ (Int.floor ((i : ℚ) * ((R : ℚ) / 16000))).toNat + 1 < data.length
  · rw [if_pos h2, if_pos h2]
  · rw [if_neg h2, if_neg h2]

theorem resample_index_eq (R i : Nat) :
    Int.floor ((i : ℚ) * ((R : ℚ) / 16000)) = Int.floor ((i * R : ℚ) / 16000) := by
  congr 1
  ring

theorem resample_length_eq (R n : Nat) :
    (Int.floor ((n : ℚ) / ((R : ℚ) / 16000))).toNat
      = (Int.floor ((16000 * n : ℚ) / R)).toNat := by
  congr 2
  rw [div_div_eq_mul_div]
  ring

/-- C1: for every recorded buffer of `N` samples captured at source rate
`R`, `stop_recording` returns a resampled mono 16 kHz buffer computed by
nearest-neighbor decimation: the output length is `⌊N * 16000 / R⌋`
(exactly, hence within ±1); each output index `i` is taken from source
index `⌊i * R / 16000⌋`, which always lies strictly inside the source
buffer (trailing truncation, never zero-padding), with a stereo source's
two interleaved values at that index averaged to mono; and a stereo input
whose samples all equal `x` yields mono samples equal to `x`. -/
theorem stop_recording_resample_spec (r : RecorderState) (hR : 0 < r.sample_rate) :
    ((stop_recording r).1).length
        = (Int.floor ((16000 * r.audio_data.length : ℚ) / r.sample_rate)).toNat
    ∧ (∀ i < ((stop_recording r).1).length,
        (Int.floor ((i * r.sample_rate : ℚ) / 16000)).toNat < r.audio_data.length
        ∧ ((stop_recording r).1).getD i 0
            = sourceSample r.channels r.audio_data
                ((Int.floor ((i * r.sample_rate : ℚ) / 16000)).toNat))
    ∧ (r.channels = 2 → ∀ x : ℚ, (∀ y ∈ r.audio_data, y = x) →
        ∀ z ∈ (stop_recording r).1, z = x) := by
  have hfst : (stop_recording r).1 = resample r.sample_rate r.channels r.audio_data := rfl
  have hmap := resample_eq_map r.sample_rate r.channels r.audio_data hR
  refine ⟨?_, ?_, ?_⟩
  · rw [hfst, hmap, List.length_map, List.length_range, resample_length_eq]
  · intro i hi
    rw [hfst, hmap, List.length_map, List.length_range] at hi
    have hidx := resample_index_lt r.sample_rate r.audio_data.length i hR hi
    rw [resample_index_eq] at hidx
    refine ⟨hidx, ?_⟩
    have hgd : i < ((stop_recording r).1).length := by
      rw [hfst, hmap, List.length_map, List.length_range]
      exact hi
    rw [List.getD_eq_getElem _ _ hgd]
    simp only [hfst, hmap, List.getElem_map, List.getElem_range]
    rw [resample_index_eq]
  · intro hch x hx z hz
    rw [hfst, hmap] at hz
    obtain ⟨i, hi, rfl⟩ := List.mem_map.mp hz
    rw [List.mem_range] at hi
    have hidx := resample_index_lt r.sample_rate r.audio_data.length i hR hi
    set j := (Int.floor ((i : ℚ) * ((r.sample_rate : ℚ) / 16000))).toNat with hj
    unfold sourceSample
    by_cases h2 : r.channels = 2 ∧ j + 1 < r.audio_data.length
    · rw [if_pos h2]
      have ha : r.audio_data.getD j 0 = x := by
        rw [List.getD_eq_getElem _ _ hidx]
        exact hx _ (List.getElem_mem _)
      have hb : r.audio_data.getD (j + 1) 0 = x := by
        rw [List.getD_eq_getElem _ _ h2.2]
        exact hx _ (List.getElem_mem _)
      rw [ha, hb]
      ring
    · rw [if_neg h2]
      rw [List.getD_eq_getElem _ _ hidx]
      exact hx _ (List.getElem_mem _)

def c1rec : RecorderState :=
  { is_recording := true, audio_data := [1, 1, 1, 1, 1, 1],
    sample_rate := 48000, channels := 2 }

theorem stop_recording_resample_spec_witness :
    0 < c1rec.sample_rate ∧
      (((stop_recording c1rec).1).length
          = (Int.floor ((16000 * c1rec.audio_data.length : ℚ) / c1rec.sample_rate)).toNat
        ∧ (∀ i < ((stop_recording c1rec).1).length,
            (Int.floor ((i * c1rec.sample_rate : ℚ) / 16000)).toNat < c1rec.audio_data.length
            ∧ ((stop_recording c1rec).1).getD i 0
                = sourceSample c1rec.channels c1rec.audio_data
                    ((Int.floor ((i * c1rec.sample_rate : ℚ) / 16000)).toNat))
        ∧ (c1rec.channels = 2 → ∀ x : ℚ, (∀ y ∈ c1rec.audio_data, y = x) →
            ∀ z ∈ (stop_recording c1rec).1, z = x)) :=
  ⟨by decide, stop_recording_resample_spec c1rec (by decide)⟩

/-- A global keyboard event as delivered by `rdev::listen`. -/
inductive RdevEvent where
  | keyPress (k : Key)
  | keyRelease (k : Key)
  | other
  deriving DecidableEq, Repr

/-- The mutable state reachable from `VoiceProcessor` and the monitor
loop's statics: the recorder, `RECORDING_START_TIME` (milliseconds), the
frames sent over the channel (`tx`/queue, oldest first), the `is_running`
flag, the shared configuration, and the number of keyboard-monitor
threads spawned so far. -/
structure ProcessorModel where
  recorder : RecorderState
  startTime : Option Nat
  queue : List (List ℚ)
  is_running : Bool
  config : VoiceConfig
  monitor_threads : Nat
  deriving DecidableEq, Repr

/-- `VoiceProcessor::start`: set the running flag and spawn a new
keyboard-monitor thread; always returns `Ok(())`. -/
def VoiceProcessor.start (s : ProcessorModel) :
    ProcessorModel × Except String Unit :=
  ({ s with is_running := true, monitor_threads := s.monitor_threads + 1 },
   .ok ())

/-- `VoiceProcessor::stop`: set the running flag to false; nothing else. -/
def VoiceProcessor.stop (s : ProcessorModel) : ProcessorModel :=
  { s with is_running := false }

/-- `VoiceProcessor::update_config`: replace the shared snapshot. -/
def update_config (new_config : VoiceConfig) (s : ProcessorModel) : ProcessorModel :=
  { s with config := new_config }

/-- One invocation of the `rdev::listen` callback in
`VoiceProcessor::global_keyboard_event_loop`, at time `now` (ms): bail
out unless running, re-read a fresh config snapshot and bail out unless
enabled, then handle press/release of the target key; a release past the
500 ms floor emits the resampled buffer when it is non-empty and meets
the snapshot's minimum duration (`len / 16000 ≥ min_duration`). -/
def keyboardStep (target_key : Key) (now : Nat) (event : RdevEvent)
    (s : ProcessorModel) : ProcessorModel :=
  if s.is_running = false then s
  else
    let config_snapshot := s.config
    if config_snapshot.enabled = false then s
    else
      match event with
      | .keyPress k =>
        if k = target_key then
          if s.recorder.is_recording = false then
            { s with startTime := some now,
                     recorder := start_recording s.recorder }
          else s
        else s
      | .keyRelease k =>
        if k = target_key then
          if s.recorder.is_recording = true then
            let s' :=
              match s.startTime with
              | some t =>
                if 500 ≤ now - t then
                  let audio_data := (stop_recording s.recorder).1
                  if audio_data ≠ [] ∧
                      config_snapshot.min_duration ≤ (audio_data.length : ℚ) / 16000 then
                    { s with recorder := (stop_recording s.recorder).2,
                             queue := s.queue ++ [audio_data] }
                  else
                    { s with recorder := (stop_recording s.recorder).2 }
                else
                  { s with recorder := (stop_recording s.recorder).2 }
              | none =>
                { s with recorder := (stop_recording s.recorder).2 }
            { s' with startTime := none }
          else s
        else s
      | .other => s

/-- A burst of hardware audio callbacks delivered between key events. -/
def feedAudio (chunks : List (List ℚ)) (s : ProcessorModel) : ProcessorModel :=
  { s with recorder := chunks.foldl (fun r d => audioCallback d r) s.recorder }

/-- `WhisperTranscriber::transcribe` from `transcriber.rs`; `run_full`
stands for the whisper state creation plus `state.full` plus segment
collection, returning the decoded segments. -/
def transcribe (run_full : List ℚ → Option String → Except String (List String))
    (audio_data : List ℚ) (language : Option String) : Except String String :=
  if audio_data.length < 1600 then
    .ok ""
  else
    let lang : Option String :=
      match language with
      | some l => if l = "auto" then none else some l
      | none => none
    match run_full audio_data lang with
    | .error e => .error e
    | .ok segments => .ok (String.join segments).trim

/-- One iteration of `VoiceProcessor::transcription_loop` for a received
frame, against the config snapshot read for that frame: skip frames
shorter than `min_duration * 16000` samples, resolve the language
argument, transcribe, and forward a non-empty trimmed result to text
injection (`some text`); errors and empty results inject nothing. -/
def processFrame (transcribeFn : List ℚ → Option String → Except String String)
    (config_snapshot : VoiceConfig) (audio_data : List ℚ) : Option String :=
  if audio_data.length < (Int.floor (config_snapshot.min_duration * 16000)).toNat then
    none
  else
    let language : Option String :=
      if config_snapshot.language = "auto" then none
      else some config_snapshot.language
    match transcribeFn audio_data language with
    | .ok text => if text.trim = "" then none else some text.trim
    | .error _ => none

/-- `VoiceProcessor::transcription_loop` over a drained queue: the worker
consumes every frame in FIFO order, independent of any lifecycle flag,
and yields the list of injected texts. -/
def transcription_loop (transcribeFn : List ℚ → Option String → Except String String)
    (config_snapshot : VoiceConfig) (frames : List (List ℚ)) : List String :=
  frames.filterMap (processFrame transcribeFn config_snapshot)

/-- `create_whisper_context_with_auto_fallback` from `transcriber.rs`:
`new_with_params b` stands for `WhisperContext::new_with_params` with
`use_gpu(b)`; `has_gpu` is the result of `detect_gpu_capabilities`.  A
GPU-backed load is attempted only when preferred and detected, and its
failure falls through to the CPU-backed load. -/
def create_whisper_context_with_auto_fallback {Ctx : Type}
    (new_with_params : Bool → Except String Ctx)
    (has_gpu : Bool) (prefer_gpu : Bool) : Except String (Ctx × String) :=
  if prefer_gpu = true ∧ has_gpu = true then
    match new_with_params true with
    | .ok ctx => .ok (ctx, "GPU (CUDA)")
    | .error _ =>
      match new_with_params false with
      | .ok ctx => .ok (ctx, "CPU")
      | .error e => .error e
  else
    match new_with_params false with
    | .ok ctx => .ok (ctx, "CPU")
    | .error e => .error e

/-- `VoiceRecognitionState` from `mod.rs`: the `VOICE_STATE` global. -/
structure VoiceRecognitionState where
  config : VoiceConfig
  processor : Option ProcessorModel
  is_initialized : Bool
  deriving DecidableEq, Repr

/-- `initialize_voice_recognition` from `commands.rs`: stop any existing
processor, validate the loaded config, construct the new processor
(`construct` stands for `VoiceProcessor::new`), install it, and start
it.  Returns the summary string or an error. -/
def initialize_voice_recognition (pathExists : String → Bool)
    (loaded_config : VoiceConfig) (construct : Except String ProcessorModel)
    (st : VoiceRecognitionState) : VoiceRecognitionState × Except String String :=
  let st1 := { st with processor := st.processor.map VoiceProcessor.stop }
  match validate_voice_config pathExists loaded_config with
  | .error e => (st1, .error e)
  | .ok _ =>
    match construct with
    | .error e => (st1, .error ("Failed to initialize voice recognition: " ++ e))
    | .ok processor =>
      let st2 :=
        { st1 with
          processor := some (VoiceProcessor.start processor).1
          is_initialized := true
          config := loaded_config }
      (st2, .ok "Voice recognition reinitialized successfully")

/-- `save_voice_config_cmd` from `commands.rs`: validate, persist via
`save_voice_config` (`save_result` stands for the file write), then
update the global config and hot-apply to an existing processor. -/
def save_voice_config_cmd (pathExists : String → Bool)
    (save_result : Except String Unit) (st : VoiceRecognitionState)
    (config : VoiceConfig) : VoiceRecognitionState × Except String Unit :=
  match validate_voice_config pathExists config with
  | .error e => (st, .error e)
  | .ok _ =>
    match save_result with
    | .error e => (st, .error e)
    | .ok _ =>
      ({ st with
          config := config
          processor := st.processor.map (update_config config) },
       .ok ())

theorem foldl_audioCallback_is_recording (chunks : List (List ℚ)) (r : RecorderState) :
    (chunks.foldl (fun a d => audioCallback d a) r).is_recording = r.is_recording := by
  induction chunks generalizing r with
  | nil => rfl
  | cons c cs ih =>
    rw [List.foldl_cons, ih]
    unfold audioCallback
    split <;> rfl

/-- C2: engine construction returns an error only when the CPU-backed
model load fails; a failed GPU-backed load (preferred and capability
detected) falls back to a CPU load instead of surfacing the GPU error;
and with `prefer_gpu = true` on a machine with no detected GPU
capability, a valid model loads in CPU mode without error. -/
theorem create_context_cpu_fallback_spec {Ctx : Type}
    (new_with_params : Bool → Except String Ctx) (has_gpu prefer_gpu : Bool) :
    (∀ e, create_whisper_context_with_auto_fallback new_with_params has_gpu prefer_gpu
          = .error e →
        new_with_params false = .error e)
    ∧ (∀ e ctx, prefer_gpu = true → has_gpu = true →
        new_with_params true = .error e → new_with_params false = .ok ctx →
        create_whisper_context_with_auto_fallback new_with_params has_gpu prefer_gpu
          = .ok (ctx, "CPU"))
    ∧ (∀ ctx, prefer_gpu = true → has_gpu = false →
        new_with_params false = .ok ctx →
        create_whisper_context_with_auto_fallback new_with_params has_gpu prefer_gpu
          = .ok (ctx, "CPU")) := by
  refine ⟨?_, ?_, ?_⟩
  · intro e he
    unfold create_whisper_context_with_auto_fallback at he
    by_cases hg : prefer_gpu = true ∧ has_gpu = true
    · rw [if_pos hg] at he
      cases h1 : new_with_params true with
      | ok ctx => rw [h1] at he; simp at he
      | error e1 =>
        rw [h1] at he
        cases h2 : new_with_params false with
        | ok ctx => rw [h2] at he; simp at he
        | error e2 => rw [h2] at he; simp only [Except.error.injEq] at he; rw [he]
    · rw [if_neg hg] at he
      cases h2 : new_with_params false with
      | ok ctx => rw [h2] at he; simp at he
      | error e2 => rw [h2] at he; simp only [Except.error.injEq] at he; rw [he]

  · intro e ctx hp hh h1 h2
    unfold create_whisper_context_with_auto_fallback
    rw [if_pos ⟨hp, hh⟩, h1, h2]
  · intro ctx hp hh h2
    unfold create_whisper_context_with_auto_fallback
    rw [if_neg (by simp [hh]), h2]

theorem create_context_cpu_fallback_spec_witness :
    create_whisper_context_with_auto_fallback
        (fun _ => (Except.ok 0 : Except String Nat)) false true = .ok (0, "CPU") :=
  (create_context_cpu_fallback_spec (fun _ => (Except.ok 0 : Except String Nat))
    false true).2.2 0 rfl rfl rfl

/-- `validate_voice_config` succeeds exactly when all five checks pass. -/
theorem validate_ok_iff (pathExists : String → Bool) (config : VoiceConfig) :
    validate_voice_config pathExists config = .ok () ↔
      (config.model_path ≠ "" ∧ pathExists config.model_path = true
        ∧ 0 ≤ config.sensitivity ∧ config.sensitivity ≤ 1
        ∧ 0 < config.min_duration
        ∧ config.min_duration < config.max_duration
        ∧ 8000 ≤ config.sample_rate ∧ config.sample_rate ≤ 48000) := by
  constructor
  · intro h
    unfold validate_voice_config at h
    by_cases h1 : config.model_path = ""
    · rw [if_pos h1] at h; exact absurd h (by simp)
    rw [if_neg h1] at h
    by_cases h2 : pathExists config.model_path = true
    · rw [if_neg (not_not_intro h2)] at h
      by_cases h3 : config.sensitivity < 0 ∨ 1 < config.sensitivity
      · rw [if_pos h3] at h; exact absurd h (by simp)
      rw [if_neg h3] at h
      by_cases h4 : config.min_duration ≤ 0
      · rw [if_pos h4] at h; exact absurd h (by simp)
      rw [if_neg h4] at h
      by_cases h5 : config.max_duration ≤ config.min_duration
      · rw [if_pos h5] at h; exact absurd h (by simp)
      rw [if_neg h5] at h
      by_cases h6 : config.sample_rate < 8000 ∨ 48000 < config.sample_rate
      · rw [if_pos h6] at h; exact absurd h (by simp)
      push_neg at h3 h6
      exact ⟨h1, h2, h3.1, h3.2, not_le.mp h4, not_le.mp h5, h6.1, h6.2⟩
    · rw [if_pos h2] at h; exact absurd h (by simp)
  · rintro ⟨ha, hb, hc, hd, he', hf, hg, hh⟩
    unfold validate_voice_config
    rw [if_neg ha, if_neg (not_not_intro hb),
      if_neg (by push_neg; exact ⟨hc, hd⟩), if_neg (not_le.mpr he'),
      if_neg (not_le.mpr hf), if_neg (by omega)]

/-- Default-shaped enabled configuration used in concrete runs. -/
def baseConfig : VoiceConfig :=
  { enabled := true, hotkey := "F2", gpu_acceleration := false,
    model_path := "model.bin", language := "auto", sensitivity := 3/5,
    min_duration := 1/8000, max_duration := 30, sample_rate := 16000,
    auto_gpu_detection := true }

/-- An idle mono recorder at 16 kHz. -/
def idleRecorder : RecorderState :=
  { is_recording := false, audio_data := [], sample_rate := 16000, channels := 1 }

def c5proc : ProcessorModel :=
  { recorder := idleRecorder, startTime := none, queue := [],
    is_running := false, config := baseConfig, monitor_threads := 0 }

/-- C5 counterexample: the post-state after two consecutive `start()`
calls differs from the post-state after one — each call spawns a fresh
keyboard-monitor thread. -/
theorem start_twice_not_idempotent :
    (VoiceProcessor.start (VoiceProcessor.start c5proc).1).1
      ≠ (VoiceProcessor.start c5proc).1 := by
  intro h
  have h2 := congrArg ProcessorModel.monitor_threads h
  simp only [VoiceProcessor.start] at h2
  omega

/-- C5 amended: calling `start()` twice returns no error on the second
call and leaves the running flag and the rest of the processor state as
after one call, but each call spawns a new keyboard-monitor thread, so
two consecutive calls create two monitor threads rather than one. -/
theorem start_twice_spec (s : ProcessorModel) :
    (VoiceProcessor.start (VoiceProcessor.start s).1).2 = .ok ()
    ∧ (VoiceProcessor.start (VoiceProcessor.start s).1).1.is_running
        = (VoiceProcessor.start s).1.is_running
    ∧ (VoiceProcessor.start (VoiceProcessor.start s).1).1.recorder
        = (VoiceProcessor.start s).1.recorder
    ∧ (VoiceProcessor.start (VoiceProcessor.start s).1).1.queue
        = (VoiceProcessor.start s).1.queue
    ∧ (VoiceProcessor.start (VoiceProcessor.start s).1).1.config
        = (VoiceProcessor.start s).1.config
    ∧ (VoiceProcessor.start (VoiceProcessor.start s).1).1.monitor_threads
        = s.monitor_threads + 2 :=
  ⟨rfl, rfl, rfl, rfl, rfl, rfl⟩

/-- C8: `stop()` only clears the cooperatively-checked running flag — the
recorder (including an in-progress recording), the queue, the pending
start time and the configuration are untouched; the monitor's next key
event observes the cleared flag and does nothing; and the worker's
processing of every frame already on the queue is unaffected (it never
reads the flag), so each queued frame is still transcribed. -/
theorem stop_cooperative_spec (s : ProcessorModel) (target_key : Key)
    (now : Nat) (event : RdevEvent)
    (transcribeFn : List ℚ → Option String → Except String String)
    (config_snapshot : VoiceConfig) :
    (VoiceProcessor.stop s).recorder = s.recorder
    ∧ (VoiceProcessor.stop s).queue = s.queue
    ∧ (VoiceProcessor.stop s).startTime = s.startTime
    ∧ (VoiceProcessor.stop s).config = s.config
    ∧ (VoiceProcessor.stop s).monitor_threads = s.monitor_threads
    ∧ (VoiceProcessor.stop s).is_running = false
    ∧ keyboardStep target_key now event (VoiceProcessor.stop s) = VoiceProcessor.stop s
    ∧ transcription_loop transcribeFn config_snapshot (VoiceProcessor.stop s).queue
        = s.queue.filterMap (processFrame transcribeFn config_snapshot) :=
  ⟨rfl, rfl, rfl, rfl, rfl, rfl, rfl, rfl⟩

/-- C9: for every sample slice with fewer than 1600 samples (less than
0.1 s of 16 kHz audio) and every language argument, `transcribe` returns
`Ok` with the empty string, without invoking the model (the result is
the same for every model oracle). -/
theorem transcribe_short_circuit_spec
    (run_full : List ℚ → Option String → Except String (List String))
    (audio_data : List ℚ) (language : Option String)
    (h : audio_data.length < 1600) :
    transcribe run_full audio_data language = .ok "" := by
  unfold transcribe
  rw [if_pos h]

/-- C3: for every recording session started by a trigger-key press at
`t0` (from a running, enabled, idle monitor) and any burst of audio
callbacks, a release of the trigger key at `t1` with `t1 - t0 < 500` ms
discards the buffer without sending anything to the queue — for every
configured minimum duration — while a release with `t1 - t0 ≥ 500` ms
emits exactly one buffer to the queue, given the resampled buffer is
non-empty and meets the configured minimum duration. -/
theorem recording_floor_500ms_spec (s : ProcessorModel) (target_key : Key)
    (t0 t1 : Nat) (chunks : List (List ℚ))
    (hrun : s.is_running = true) (hen : s.config.enabled = true)
    (hidle : s.recorder.is_recording = false) :
    (t1 - t0 < 500 →
      (keyboardStep target_key t1 (.keyRelease target_key)
          (feedAudio chunks (keyboardStep target_key t0 (.keyPress target_key) s))).queue
        = s.queue)
    ∧ (500 ≤ t1 - t0 →
        ∀ audio_data,
          audio_data = (stop_recording
            (feedAudio chunks
              (keyboardStep target_key t0 (.keyPress target_key) s)).recorder).1 →
          audio_data ≠ [] →
          s.config.min_duration ≤ (audio_data.length : ℚ) / 16000 →
          (keyboardStep target_key t1 (.keyRelease target_key)
              (feedAudio chunks (keyboardStep target_key t0 (.keyPress target_key) s))).queue
            = s.queue ++ [audio_data]) := by
  have hpress : keyboardStep target_key t0 (.keyPress target_key) s
      = { s with startTime := some t0, recorder := start_recording s.recorder } := by
    simp [keyboardStep, hrun, hen, hidle]
  have hfedrec : (feedAudio chunks
      (keyboardStep target_key t0 (.keyPress target_key) s)).recorder.is_recording = true := by
    rw [hpress]
    unfold feedAudio
    simp only []
    rw [foldl_audioCallback_is_recording]
    rfl
  constructor
  · intro h500
    rw [hpress]
    unfold feedAudio keyboardStep
    simp only [hrun, hen, foldl_audioCallback_is_recording, start_recording,
      Nat.not_le.mpr h500]
    simp
  · intro h500 audio_data haud hne hmin
    rw [hpress] at haud ⊢
    unfold feedAudio keyboardStep
    unfold feedAudio at haud
    simp only [start_recording] at haud
    simp only [hrun, hen, foldl_audioCallback_is_recording, start_recording, h500]
    rw [← haud]
    simp [hne, hmin, h500]

def c3proc : ProcessorModel :=
  { recorder := idleRecorder, startTime := none, queue := [],
    is_running := true, config := baseConfig, monitor_threads := 1 }

/-- Concrete evaluation of the resampler: a two-sample mono buffer at
16 kHz resamples to itself. -/
theorem resample_pair : resample 16000 1 [(1 : ℚ), 1] = [1, 1] := by
  rw [resample_eq_map 16000 1 [(1 : ℚ), 1] (by norm_num)]
  have h2 : (Int.floor ((([(1 : ℚ), 1].length : Nat) : ℚ) / (((16000 : Nat) : ℚ) / 16000))).toNat = 2 := by
    simp only [List.length_cons, List.length_nil]
    norm_num
    rfl
  rw [h2]
  have hr0 : List.range 2 = [0, 1] := rfl
  rw [hr0]
  simp only [List.map_cons, List.map_nil]
  have h0 : (Int.floor (((0 : Nat) : ℚ) * (((16000 : Nat) : ℚ) / 16000))).toNat = 0 := by
    norm_num
  have h1 : (Int.floor (((1 : Nat) : ℚ) * (((16000 : Nat) : ℚ) / 16000))).toNat = 1 := by
    norm_num
  rw [h0, h1]
  simp [sourceSample]

theorem recording_floor_500ms_spec_witness :
    c3proc.is_running = true ∧ c3proc.config.enabled = true
    ∧ c3proc.recorder.is_recording = false
    ∧ (keyboardStep Key.F2 600 (.keyRelease Key.F2)
        (feedAudio [[(1 : ℚ), 1]]
          (keyboardStep Key.F2 0 (.keyPress Key.F2) c3proc))).queue
        = c3proc.queue ++ [[(1 : ℚ), 1]] := by
  refine ⟨rfl, rfl, rfl, ?_⟩
  have haud : ([(1 : ℚ), 1] : List ℚ) = (stop_recording
      (feedAudio [[(1 : ℚ), 1]]
        (keyboardStep Key.F2 0 (.keyPress Key.F2) c3proc)).recorder).1 := by
    show ([(1 : ℚ), 1] : List ℚ) = resample _ _ _
    simp [keyboardStep, feedAudio, audioCallback, c3proc, idleRecorder, baseConfig,
      start_recording, stop_recording]
    exact resample_pair.symm
  exact (recording_floor_500ms_spec c3proc Key.F2 0 600 [[(1 : ℚ), 1]]
      rfl rfl rfl).2 (by norm_num) [(1 : ℚ), 1] haud (by simp)
      (by simp [c3proc, baseConfig]; norm_num)

/-- Evaluation of a trigger-key release past the 500 ms floor on an
armed monitor: the decision condition reads the state's current config
snapshot. -/
theorem keyboardStep_release_eval (s : ProcessorModel) (target_key : Key)
    (t0 t1 : Nat) (hrun : s.is_running = true) (hen : s.config.enabled = true)
    (hrec : s.recorder.is_recording = true) (hst : s.startTime = some t0)
    (h500 : 500 ≤ t1 - t0) :
    (keyboardStep target_key t1 (.keyRelease target_key) s).queue
      = if (stop_recording s.recorder).1 ≠ [] ∧
            s.config.min_duration ≤ (((stop_recording s.recorder).1).length : ℚ) / 16000
        then s.queue ++ [(stop_recording s.recorder).1]
        else s.queue := by
  unfold keyboardStep
  simp only [hrun, hen, hrec, hst, h500]
  simp [apply_ite ProcessorModel.queue]

/-- The configuration with the minimum duration raised to one second. -/
def c4cfg2 : VoiceConfig := { baseConfig with min_duration := 1 }

/-- C4 counterexample: a session armed under the base config (minimum
duration 1/8000 s) whose config is replaced mid-session by `c4cfg2`
(minimum duration 1 s).  The code's release decision uses the live
snapshot, so the two-sample buffer is dropped (queue stays `[]`), while
the identical run without the mid-session update emits it — the claim
that duration decisions use the session-start snapshot predicts
`[[1, 1]]` in both runs. -/
theorem release_session_snapshot_counterexample :
    (keyboardStep Key.F2 600 (.keyRelease Key.F2)
        (update_config c4cfg2
          (feedAudio [[(1 : ℚ), 1]]
            (keyboardStep Key.F2 0 (.keyPress Key.F2) c3proc)))).queue = []
    ∧ (keyboardStep Key.F2 600 (.keyRelease Key.F2)
        (feedAudio [[(1 : ℚ), 1]]
          (keyboardStep Key.F2 0 (.keyPress Key.F2) c3proc))).queue
        = [[(1 : ℚ), 1]] := by
  have hsr : (stop_recording (⟨true, [(1 : ℚ), 1], 16000, 1⟩ : RecorderState)).1
      = [(1 : ℚ), 1] := by
    show resample 16000 1 [(1 : ℚ), 1] = [(1 : ℚ), 1]
    exact resample_pair
  constructor
  · rw [show update_config c4cfg2
        (feedAudio [[(1 : ℚ), 1]] (keyboardStep Key.F2 0 (.keyPress Key.F2) c3proc))
        = { recorder := ⟨true, [(1 : ℚ), 1], 16000, 1⟩, startTime := some 0,
            queue := [], is_running := true, config := c4cfg2,
            monitor_threads := 1 } from rfl]
    rw [keyboardStep_release_eval _ Key.F2 0 600 rfl rfl rfl rfl (by norm_num)]
    rw [if_neg]
    rintro ⟨-, hle⟩
    rw [hsr] at hle
    simp only [List.length_cons, List.length_nil] at hle
    norm_num [c4cfg2, baseConfig] at hle
  · rw [show feedAudio [[(1 : ℚ), 1]] (keyboardStep Key.F2 0 (.keyPress Key.F2) c3proc)
        = { recorder := ⟨true, [(1 : ℚ), 1], 16000, 1⟩, startTime := some 0,
            queue := [], is_running := true, config := baseConfig,
            monitor_threads := 1 } from rfl]
    rw [keyboardStep_release_eval _ Key.F2 0 600 rfl rfl rfl rfl (by norm_num)]
    rw [if_pos, hsr]
    · rfl
    constructor
    · rw [hsr]; simp
    · rw [hsr]
      simp only [List.length_cons, List.length_nil]
      norm_num [baseConfig]

/-- C4 amended: when `update_config` replaces the shared configuration
while a recording session is armed, the session's duration decision at
key release uses the live configuration snapshot re-read at the release
event — not the snapshot captured at session start — and the enabled
gate is likewise re-read from the live snapshot on every key event (a
disabled live config makes the release event a no-op). -/
theorem update_config_live_decision_spec (s : ProcessorModel)
    (new_config : VoiceConfig) (target_key : Key) (t0 t1 : Nat)
    (hrun : s.is_running = true) (hrec : s.recorder.is_recording = true)
    (hst : s.startTime = some t0) (h500 : 500 ≤ t1 - t0) :
    (new_config.enabled = true →
      (keyboardStep target_key t1 (.keyRelease target_key)
          (update_config new_config s)).queue
        = if (stop_recording s.recorder).1 ≠ [] ∧
              new_config.min_duration ≤ (((stop_recording s.recorder).1).length : ℚ) / 16000
          then s.queue ++ [(stop_recording s.recorder).1]
          else s.queue)
    ∧ (new_config.enabled = false →
        keyboardStep target_key t1 (.keyRelease target_key)
            (update_config new_config s)
          = update_config new_config s) := by
  constructor
  · intro hen2
    exact keyboardStep_release_eval (update_config new_config s) target_key t0 t1
      hrun hen2 hrec hst h500
  · intro hen2
    unfold keyboardStep
    simp [update_config, hrun, hen2]

/-- A monitor state armed mid-session with two samples in the buffer. -/
def c4armed : ProcessorModel :=
  { recorder := ⟨true, [(1 : ℚ), 1], 16000, 1⟩, startTime := some 0,
    queue := [], is_running := true, config := baseConfig,
    monitor_threads := 1 }

theorem update_config_live_decision_spec_witness :
    c4armed.is_running = true ∧ c4armed.recorder.is_recording = true
    ∧ c4armed.startTime = some 0 ∧ 500 ≤ 600 - 0
    ∧ ((c4cfg2.enabled = true →
        (keyboardStep Key.F2 600 (.keyRelease Key.F2)
            (update_config c4cfg2 c4armed)).queue
          = if (stop_recording c4armed.recorder).1 ≠ [] ∧
                c4cfg2.min_duration
                  ≤ (((stop_recording c4armed.recorder).1).length : ℚ) / 16000
            then c4armed.queue ++ [(stop_recording c4armed.recorder).1]
            else c4armed.queue)
      ∧ (c4cfg2.enabled = false →
          keyboardStep Key.F2 600 (.keyRelease Key.F2)
              (update_config c4cfg2 c4armed)
            = update_config c4cfg2 c4armed)) :=
  ⟨rfl, rfl, rfl, by norm_num,
   update_config_live_decision_spec c4armed c4cfg2 Key.F2 0 600
     rfl rfl rfl (by norm_num)⟩

theorem transcribe_short_circuit_spec_witness :
    ([(1 : ℚ), 2, 3]).length < 1600
    ∧ transcribe (fun _ _ => .error "model invoked") [(1 : ℚ), 2, 3] (some "en")
        = .ok "" :=
  ⟨by decide,
   transcribe_short_circuit_spec (fun _ _ => .error "model invoked")
     [(1 : ℚ), 2, 3] (some "en") (by decide)⟩

/-- C6: `save_config` rejects — returning an error and leaving the state
unchanged (nothing persisted, nothing clamped) — a missing or
nonexistent model path, a sensitivity outside [0, 1] (with the error
"Sensitivity must be between 0.0 and 1.0" once the path checks pass), a
non-positive minimum duration, a maximum duration at most the minimum
(with the error "Maximum duration must be greater than minimum
duration"), and a sample rate outside [8000, 48000]; every configuration
passing all five checks validates and (with a successful file write) is
accepted and applied. -/
theorem save_config_validation_spec (pathExists : String → Bool)
    (save_result : Except String Unit) (st : VoiceRecognitionState)
    (config : VoiceConfig) :
    ((config.model_path = "" ∨ pathExists config.model_path = false
        ∨ config.sensitivity < 0 ∨ 1 < config.sensitivity
        ∨ config.min_duration ≤ 0
        ∨ config.max_duration ≤ config.min_duration
        ∨ config.sample_rate < 8000 ∨ 48000 < config.sample_rate) →
      (save_voice_config_cmd pathExists save_result st config).1 = st
      ∧ ∃ e, (save_voice_config_cmd pathExists save_result st config).2 = .error e)
    ∧ (config.model_path ≠ "" → pathExists config.model_path = true →
        (config.sensitivity < 0 ∨ 1 < config.sensitivity) →
        (save_voice_config_cmd pathExists save_result st config).2
          = .error "Sensitivity must be between 0.0 and 1.0")
    ∧ (config.model_path ≠ "" → pathExists config.model_path = true →
        0 ≤ config.sensitivity → config.sensitivity ≤ 1 →
        0 < config.min_duration →
        config.max_duration ≤ config.min_duration →
        (save_voice_config_cmd pathExists save_result st config).2
          = .error "Maximum duration must be greater than minimum duration")
    ∧ (config.model_path ≠ "" → pathExists config.model_path = true →
        0 ≤ config.sensitivity → config.sensitivity ≤ 1 →
        0 < config.min_duration → config.min_duration < config.max_duration →
        8000 ≤ config.sample_rate → config.sample_rate ≤ 48000 →
        validate_voice_config pathExists config = .ok ()
        ∧ (save_voice_config_cmd pathExists (.ok ()) st config).2 = .ok ()
        ∧ (save_voice_config_cmd pathExists (.ok ()) st config).1.config = config) := by
  refine ⟨?_, ?_, ?_, ?_⟩
  · intro hbad
    cases hv : validate_voice_config pathExists config with
    | error e =>
      unfold save_voice_config_cmd
      rw [hv]
      exact ⟨rfl, e, rfl⟩
    | ok u =>
      exfalso
      cases u
      obtain ⟨ha, hb, hc, hd, he', hf, hg, hh⟩ := (validate_ok_iff pathExists config).mp hv
      rcases hbad with h | h | h | h | h | h | h | h
      · exact ha h
      · rw [hb] at h; simp at h
      · linarith
      · linarith
      · linarith
      · linarith
      · omega
      · omega
  · intro ha hb h3
    have hv : validate_voice_config pathExists config
        = .error "Sensitivity must be between 0.0 and 1.0" := by
      unfold validate_voice_config
      rw [if_neg ha, if_neg (not_not_intro hb), if_pos h3]
    unfold save_voice_config_cmd
    rw [hv]
  · intro ha hb hc hd he' hf
    have hv : validate_voice_config pathExists config
        = .error "Maximum duration must be greater than minimum duration" := by
      unfold validate_voice_config
      rw [if_neg ha, if_neg (not_not_intro hb),
        if_neg (by push_neg; exact ⟨hc, hd⟩), if_neg (not_le.mpr he'), if_pos hf]
    unfold save_voice_config_cmd
    rw [hv]
  · intro ha hb hc hd he' hf hg hh
    have hv : validate_voice_config pathExists config = .ok () :=
      (validate_ok_iff pathExists config).mpr ⟨ha, hb, hc, hd, he', hf, hg, hh⟩
    refine ⟨hv, ?_, ?_⟩ <;>
      · unfold save_voice_config_cmd
        rw [hv]

/-- A configuration rejected for its out-of-range sensitivity. -/
def c6bad : VoiceConfig := { baseConfig with sensitivity := 3/2 }

/-- A global state with no processor installed. -/
def c6st : VoiceRecognitionState :=
  { config := baseConfig, processor := none, is_initialized := false }

theorem save_config_validation_spec_witness :
    c6bad.model_path ≠ "" ∧ (fun _ => true) c6bad.model_path = true
    ∧ (c6bad.sensitivity < 0 ∨ 1 < c6bad.sensitivity)
    ∧ (save_voice_config_cmd (fun _ => true) (.ok ()) c6st c6bad).2
        = .error "Sensitivity must be between 0.0 and 1.0" :=
  ⟨by decide, rfl, Or.inr (by show (1 : ℚ) < 3/2; norm_num),
   (save_config_validation_spec (fun _ => true) (.ok ()) c6st c6bad).2.1
     (by decide) rfl (Or.inr (by show (1 : ℚ) < 3/2; norm_num))⟩

/-- The base configuration with an unrecognized trigger-key name. -/
def c7cfg : VoiceConfig := { baseConfig with hotkey := "XYZ" }

/-- C7 counterexample: "XYZ" is outside the closed key mapping, yet
configuration validation accepts the configuration (the validator never
inspects the hotkey field) and the monitor silently defaults to `F2` —
the claim says validation must fail for such a name. -/
theorem unrecognized_hotkey_validation_ok :
    parse_hotkey c7cfg.hotkey = none
    ∧ validate_voice_config (fun _ => true) c7cfg = .ok ()
    ∧ monitorTargetKey c7cfg.hotkey = Key.F2 := by
  refine ⟨rfl, ?_, rfl⟩
  exact (validate_ok_iff (fun _ => true) c7cfg).mpr
    ⟨by decide, rfl,
     by show (0 : ℚ) ≤ 3/5; norm_num,
     by show (3 : ℚ)/5 ≤ 1; norm_num,
     by show (0 : ℚ) < 1/8000; norm_num,
     by show (1 : ℚ)/8000 < 30; norm_num,
     by decide, by decide⟩

/-- C7 amended: a configured trigger-key name outside the closed mapping
passes configuration validation unchanged (the validator does not
inspect the hotkey field at all), and the monitor silently defaults the
target key to `F2` instead of failing. -/
theorem unrecognized_hotkey_defaults_spec (pathExists : String → Bool)
    (config : VoiceConfig) (other_hotkey : String)
    (hnone : parse_hotkey config.hotkey = none) :
    monitorTargetKey config.hotkey = Key.F2
    ∧ validate_voice_config pathExists { config with hotkey := other_hotkey }
        = validate_voice_config pathExists config := by
  constructor
  · unfold monitorTargetKey
    rw [hnone]
    rfl
  · rfl

theorem unrecognized_hotkey_defaults_spec_witness :
    parse_hotkey c7cfg.hotkey = none
    ∧ (monitorTargetKey c7cfg.hotkey = Key.F2
      ∧ validate_voice_config (fun _ => true) { c7cfg with hotkey := "ABC" }
          = validate_voice_config (fun _ => true) c7cfg) :=
  ⟨rfl, unrecognized_hotkey_defaults_spec (fun _ => true) c7cfg "ABC" rfl⟩

/-- C10: when `initialize` fails (configuration validation failure or
capture/engine construction failure), any previously installed processor
has already had its running flag cleared before the failure point and
remains the installed processor, while the initialized flag and the
stored configuration are left unchanged by the failed call. -/
theorem initialize_failure_state_spec (pathExists : String → Bool)
    (loaded_config : VoiceConfig) (construct : Except String ProcessorModel)
    (st : VoiceRecognitionState) (e : String)
    (h : (initialize_voice_recognition pathExists loaded_config construct st).2
        = .error e) :
    (initialize_voice_recognition pathExists loaded_config construct st).1.processor
        = st.processor.map VoiceProcessor.stop
    ∧ (initialize_voice_recognition pathExists loaded_config construct st).1.is_initialized
        = st.is_initialized
    ∧ (initialize_voice_recognition pathExists loaded_config construct st).1.config
        = st.config
    ∧ ∀ p, st.processor = some p →
        (initialize_voice_recognition pathExists loaded_config construct st).1.processor
          = some { p with is_running := false } := by
  unfold initialize_voice_recognition at h ⊢
  cases hv : validate_voice_config pathExists loaded_config with
  | error e1 =>
    exact ⟨rfl, rfl, rfl, fun p hp => by rw [hp]; rfl⟩
  | ok u =>
    cases u
    rw [hv] at h
    cases hc : construct with
    | error e2 =>
      exact ⟨rfl, rfl, rfl, fun p hp => by rw [hp]; rfl⟩
    | ok proc =>
      exact absurd h (by simp [hc])

/-- A previously installed, running processor. -/
def c10proc : ProcessorModel :=
  { recorder := idleRecorder, startTime := none, queue := [],
    is_running := true, config := baseConfig, monitor_threads := 1 }

/-- A global state holding `c10proc` as the installed processor. -/
def c10st : VoiceRecognitionState :=
  { config := baseConfig, processor := some c10proc, is_initialized := true }

theorem initialize_failure_state_spec_witness :
    (initialize_voice_recognition (fun _ => false) baseConfig
        (.error "audio device failed") c10st).2
      = .error "Model file not found: model.bin"
    ∧ ((initialize_voice_recognition (fun _ => false) baseConfig
          (.error "audio device failed") c10st).1.processor
        = c10st.processor.map VoiceProcessor.stop
      ∧ (initialize_voice_recognition (fun _ => false) baseConfig
          (.error "audio device failed") c10st).1.is_initialized
        = c10st.is_initialized
      ∧ (initialize_voice_recognition (fun _ => false) baseConfig
          (.error "audio device failed") c10st).1.config
        = c10st.config
      ∧ ∀ p, c10st.processor = some p →
          (initialize_voice_recognition (fun _ => false) baseConfig
            (.error "audio device failed") c10st).1.processor
            = some { p with is_running := false }) :=
  ⟨rfl, initialize_failure_state_spec (fun _ => false) baseConfig
    (.error "audio device failed") c10st "Model file not found: model.bin" rfl⟩
